import Mathlib

/- Shallow embedding of the jsenecal/ipmi-fan-control repository.

   Python floats are modelled as exact rationals (the claims under study are
   about order, clamping and algebraic structure, not rounding).  All
   definitions below are translated from the source files
   src/ipmi_fan_control/pid.py, src/ipmi_fan_control/ipmi.py and
   src/ipmi_fan_control/ipmitool.py.  Mutation of the Python objects is
   modelled by explicit state passing: a method that mutates `self` becomes a
   function returning the new state (paired with its return value where the
   method returns one). -/

/-- State of a `PIDController` object (src/ipmi_fan_control/pid.py, `__init__`).
Field names follow the Python attribute names; `last_time` holds the timestamp
of the last accepted update. -/
structure PIDState where
  kp : ℚ
  ki : ℚ
  kd : ℚ
  output_min : ℚ
  output_max : ℚ
  sample_time : ℚ
  setpoint : ℚ
  last_error : ℚ
  integral : ℚ
  last_input : ℚ
  last_output : ℚ
  last_time : ℚ
  auto_mode : Bool
  initialized : Bool
deriving DecidableEq, Repr

/-- Python's `max(min(x, hi), lo)` clamping idiom, used verbatim in pid.py
lines 75, 156 and 171 and ipmitool.py line 415. -/
def clampQ (x lo hi : ℚ) : ℚ := max (min x hi) lo

/-- Controller state produced by `PIDController.__init__` with the default
arguments (kp=0.1, ki=0.02, kd=0.01, output_min=30.0, output_max=100.0,
sample_time=1.0); `t0` stands for the construction-time `time.time()`. -/
def mkPID (t0 : ℚ) : PIDState :=
  { kp := 1/10, ki := 1/50, kd := 1/100,
    output_min := 30, output_max := 100, sample_time := 1,
    setpoint := 0, last_error := 0, integral := 0,
    last_input := 0, last_output := 0, last_time := t0,
    auto_mode := false, initialized := false }

/-- Default controller, with the construction timestamp taken as 0. -/
def defaultPID : PIDState := mkPID 0

/-- `PIDController._calculate_base_response` (pid.py lines 219-253). -/
def calculate_base_response (s : PIDState) (error : ℚ) : ℚ :=
  if error ≤ -1 then s.output_min
  else if error < 0 then
    let t := error + 1
    s.output_min + t * (40 - s.output_min)
  else if error ≤ 5 then
    let t := error / 5
    40 + t * 35
  else
    let capped_error := min (error - 5) 10
    let t := capped_error / 10
    let t_squared := t * t
    75 + t_squared * (s.output_max - 75)

/-- Rate-of-change limiting block of `compute` (pid.py lines 182-186):
if the candidate output moved more than `max_change` away from the previous
output, it is pulled back to `last_output ± max_change`. -/
def rateLimit (last out max_change : ℚ) : ℚ :=
  if abs (out - last) > max_change then
    if out > last then last + max_change else last - max_change
  else out

/-- `max_change` as computed in pid.py lines 175-180: `5.0 * time_change`,
halved when `abs error < 2.0`. -/
def maxChangeQ (error time_change : ℚ) : ℚ :=
  let max_change := 5 * time_change
  if abs error < 2 then max_change * (1/2) else max_change

/-- First-call branch of `compute` (pid.py lines 125-143): bumpless start.
Stores the initial output, seeds the integral to `0.3 ×` that output, records
error/input/time, marks the controller initialized and returns the output. -/
def computeFirst (s : PIDState) (input_val now : ℚ) : PIDState × ℚ :=
  let error := input_val - s.setpoint
  if error > 0 then
    let error_magnitude := (min error 15) / 15
    let initial_output := 35 + error_magnitude * 25
    ({ s with last_output := initial_output, integral := initial_output * (3/10),
              last_error := error, last_input := input_val, last_time := now,
              initialized := true }, initial_output)
  else
    ({ s with last_output := s.output_min, integral := s.output_min * (3/10),
              last_error := error, last_input := input_val, last_time := now,
              initialized := true }, s.output_min)

/-- Steady-state branch of `compute` (pid.py lines 145-194), reached when the
controller is in auto mode, already initialized and enough time has elapsed.
The `if self.auto_mode` guard around the integral update (line 149) is always
true on this path. -/
def computeFull (s : PIDState) (input_val now : ℚ) : PIDState × ℚ :=
  let time_change := now - s.last_time
  let error := input_val - s.setpoint
  let derivative := (input_val - s.last_input) / time_change
  let integral_scale : ℚ := if abs error > 8 then 3/10 else 1
  let integral := clampQ (s.integral + s.ki * error * time_change * integral_scale)
      s.output_min s.output_max
  let base_output := calculate_base_response s error
  let pid_component := s.kp * error + s.kd * derivative + integral
  let blend_factor := min (abs (error / 5)) 1
  let output0 := base_output * (1 - blend_factor) + pid_component * blend_factor
  let output1 := clampQ output0 s.output_min s.output_max
  let output := rateLimit s.last_output output1 (maxChangeQ error time_change)
  ({ s with integral := integral, last_error := error, last_input := input_val,
            last_output := output, last_time := now }, output)

/-- `PIDController.compute` (pid.py lines 97-194).  Returns the new controller
state together with the returned fan speed.  `now` is the explicit time
argument (Python defaults it to `time.time()`). -/
def compute (s : PIDState) (input_val now : ℚ) : PIDState × ℚ :=
  if s.auto_mode = false then (s, 0)
  else if now - s.last_time < s.sample_time ∧ s.initialized = true then
    (s, s.last_output)
  else if s.initialized = false then computeFirst s input_val now
  else computeFull s input_val now

/-- `PIDController.set_output_limits` (pid.py lines 60-75): rejected when
`output_min > output_max`; otherwise stores the limits and, in auto mode,
re-clamps the integral into the new range. -/
def set_output_limits (s : PIDState) (omin omax : ℚ) : PIDState :=
  if omin > omax then s
  else
    let s1 := { s with output_min := omin, output_max := omax }
    if s1.auto_mode = true then
      { s1 with integral := clampQ s1.integral s1.output_min s1.output_max }
    else s1

/-- `PIDController.initialize` (pid.py lines 196-201); renamed because
`initialize` is a Lean keyword.  Resets error/integral/input state and clears
the initialized flag. -/
def reset_state (s : PIDState) : PIDState :=
  { s with last_error := 0, integral := 0, last_input := 0, initialized := false }

/-- `PIDController.set_auto_mode` (pid.py lines 203-217).  On a manual-to-auto
transition it resets the state and, when `current_input` is given, seeds
`last_input` and sets `integral := last_output`. -/
def set_auto_mode (s : PIDState) (auto : Bool) (current_input : Option ℚ) : PIDState :=
  if auto = true ∧ s.auto_mode = false then
    let s1 := reset_state s
    let s2 := match current_input with
      | some ci => { s1 with last_input := ci, integral := s1.last_output }
      | none => s1
    { s2 with auto_mode := auto }
  else { s with auto_mode := auto }

/-- Python's `int()` truncation toward zero, applied to a rational. -/
def pyTrunc (q : ℚ) : ℤ := if 0 ≤ q then ⌊q⌋ else ⌈q⌉

/-- Input validation of `set_fan_speed` (ipmi.py lines 232-233 and ipmitool.py
lines 317-318): raises `ValueError` unless the percentage is in [0, 100].
The hardware command itself is external; only the validation is modelled. -/
def set_fan_speed_validate (p : ℚ) : Except Unit Unit :=
  if p < 0 ∨ p > 100 then Except.error () else Except.ok ()

/-- `DellIPMIToolFanController.get_highest_temperature` (ipmitool.py lines
274-309).  A reading's `current_temp` entry is `some v` when present and
numeric, `none` otherwise.  Empty sensor list, or no numeric values, falls
back to 60.0; otherwise the Python `max` over the valid temperatures. -/
def ipmitool_get_highest_temperature (readings : List (Option ℚ)) : ℚ :=
  if readings.isEmpty then 60
  else
    match readings.filterMap id with
    | [] => 60
    | t :: ts => ts.foldl max t

/-- `DellIPMIFanController.get_highest_temperature` (ipmi.py lines 210-221).
This backend returns 0.0 on an empty sensor list and otherwise the Python
`max` over the readings' `current_temp` values (no numeric filtering). -/
def ipmi_get_highest_temperature (readings : List ℚ) : ℚ :=
  match readings with
  | [] => 0
  | t :: ts => ts.foldl max t

/-- Fan-speed percentage applied in one iteration of
`DellIPMIToolFanController._temperature_monitor_loop` (ipmitool.py lines
406-415): `int(compute(...))` clamped by
`max(min(fan_speed, self.pid.output_max), self.pid.output_min)` on the
post-compute controller state.  (`compute` always returns a number, so the
`computed_speed is None` fallback branch is dead and not modelled.) -/
def ipmitool_loop_speed (s : PIDState) (temp now : ℚ) : ℚ :=
  let r := compute s temp now
  clampQ ((pyTrunc r.2 : ℤ) : ℚ) r.1.output_min r.1.output_max

/-- Fan-speed percentage applied in one iteration of
`DellIPMIFanController._temperature_monitor_loop` (ipmi.py line 309):
`int(self.pid.compute(current_temp))`, with no further clamping. -/
def ipmi_loop_speed (s : PIDState) (temp now : ℚ) : ℤ :=
  pyTrunc (compute s temp now).2

/-- Outcome of the body of one monitoring-loop iteration (temperature read,
PID compute, fan-speed write): either it all succeeded or some step raised. -/
inductive IterOutcome where
  | ok : IterOutcome
  | err : IterOutcome
deriving DecidableEq, Repr

/-- Safety/recovery wrapper around one iteration of
`DellIPMIToolFanController._temperature_monitor_loop` (ipmitool.py lines
396-455).  Given the consecutive-error counter and the iteration outcome it
returns the new counter, the list of safety `set_fan_speed` percentages
attempted in this iteration (the `try/except: pass` around that attempt means
its own failure has no further effect, so only the attempt is recorded), and
the duration of the trailing sleep.  `max_consecutive_errors = 3`. -/
def monitor_step (interval : ℚ) (errs : ℕ) (o : IterOutcome) : ℕ × List ℚ × ℚ :=
  match o with
  | IterOutcome.ok => (0, [], interval)
  | IterOutcome.err =>
    let errs1 := errs + 1
    let safety : List ℚ := if errs1 ≥ 3 then [70] else []
    (errs1, safety, 5 + (errs1 : ℚ) * 3)

/-- Runs the wrapper over a trace of iteration outcomes, accumulating every
attempted safety call; returns the final counter and that accumulated list. -/
def monitor_run (interval : ℚ) (errs : ℕ) (trace : List IterOutcome) : ℕ × List ℚ :=
  trace.foldl
    (fun acc o =>
      let r := monitor_step interval acc.1 o
      (r.1, acc.2 ++ r.2.1))
    (errs, [])

/- Helper lemmas about the clamping and rate-limiting building blocks. -/

lemma le_clampQ (x lo hi : ℚ) : lo ≤ clampQ x lo hi := le_max_right _ _

lemma clampQ_le (x lo hi : ℚ) (h : lo ≤ hi) : clampQ x lo hi ≤ hi :=
  max_le (min_le_right _ _) h

lemma maxChangeQ_nonneg (error tc : ℚ) (htc : 0 ≤ tc) : 0 ≤ maxChangeQ error tc := by
  simp only [maxChangeQ]
  split_ifs <;> linarith

lemma maxChangeQ_le (error tc : ℚ) (htc : 0 ≤ tc) : maxChangeQ error tc ≤ 5 * tc := by
  simp only [maxChangeQ]
  split_ifs <;> linarith

lemma rateLimit_sub_abs_le (last out mc : ℚ) (hmc : 0 ≤ mc) :
    abs (rateLimit last out mc - last) ≤ mc := by
  unfold rateLimit
  split_ifs with h1 h2
  · have h : last + mc - last = mc := by ring
    rw [h, abs_of_nonneg hmc]
  · have h : last - mc - last = -mc := by ring
    rw [h, abs_neg, abs_of_nonneg hmc]
  · exact not_lt.mp h1

lemma rateLimit_mem (last out mc lo hi : ℚ) (hmc : 0 ≤ mc)
    (hl1 : lo ≤ last) (hl2 : last ≤ hi) (ho1 : lo ≤ out) (ho2 : out ≤ hi) :
    lo ≤ rateLimit last out mc ∧ rateLimit last out mc ≤ hi := by
  unfold rateLimit
  split_ifs with h1 h2
  · rw [abs_of_pos (by linarith)] at h1
    exact ⟨by linarith, by linarith⟩
  · rw [abs_sub_comm, abs_of_nonneg (by linarith [not_lt.mp h2])] at h1
    exact ⟨by linarith, by linarith⟩
  · exact ⟨ho1, ho2⟩

/- Branch-resolution lemmas for `compute`. -/

lemma compute_not_auto (s : PIDState) (i n : ℚ) (h : s.auto_mode = false) :
    compute s i n = (s, 0) := by
  simp [compute, h]

lemma compute_early (s : PIDState) (i n : ℚ) (h : s.auto_mode = true)
    (h2 : n - s.last_time < s.sample_time) (h3 : s.initialized = true) :
    compute s i n = (s, s.last_output) := by
  simp [compute, h, h2, h3]

lemma compute_first_eq (s : PIDState) (i n : ℚ) (h : s.auto_mode = true)
    (h3 : s.initialized = false) :
    compute s i n = computeFirst s i n := by
  simp [compute, h, h3]

lemma compute_full_eq (s : PIDState) (i n : ℚ) (h : s.auto_mode = true)
    (h2 : ¬(n - s.last_time < s.sample_time)) (h3 : s.initialized = true) :
    compute s i n = computeFull s i n := by
  simp [compute, h, h2, h3]

/-- `compute` never writes the configuration fields (helper shared by several
claims below). -/
lemma compute_config (s : PIDState) (i n : ℚ) :
    (compute s i n).1.kp = s.kp ∧ (compute s i n).1.ki = s.ki ∧
    (compute s i n).1.kd = s.kd ∧ (compute s i n).1.setpoint = s.setpoint ∧
    (compute s i n).1.output_min = s.output_min ∧
    (compute s i n).1.output_max = s.output_max ∧
    (compute s i n).1.sample_time = s.sample_time ∧
    (compute s i n).1.auto_mode = s.auto_mode := by
  simp only [compute, computeFirst, computeFull]
  split_ifs <;> simp

/- Facts about Python's `max` over a nonempty list, modelled as a left fold. -/

lemma le_foldl_max (l : List ℚ) (a : ℚ) : a ≤ l.foldl max a := by
  induction l generalizing a with
  | nil => exact le_refl a
  | cons b t ih => exact le_trans (le_max_left a b) (ih (max a b))

lemma foldl_max_le_of_mem (l : List ℚ) (a x : ℚ) (hx : x ∈ l) :
    x ≤ l.foldl max a := by
  induction l generalizing a with
  | nil => cases hx
  | cons b t ih =>
    rcases List.mem_cons.mp hx with h | h
    · subst h
      exact le_trans (le_max_right a x) (le_foldl_max t (max a x))
    · exact ih (max a b) h

lemma foldl_max_mem (l : List ℚ) (a : ℚ) : l.foldl max a = a ∨ l.foldl max a ∈ l := by
  induction l generalizing a with
  | nil => exact Or.inl rfl
  | cons b t ih =>
    rcases ih (max a b) with h | h
    · rcases max_choice a b with hm | hm
      · exact Or.inl (by rw [List.foldl_cons, h, hm])
      · refine Or.inr ?_
        rw [List.foldl_cons, h, hm]
        exact List.mem_cons_self b t
    · exact Or.inr (List.mem_cons_of_mem _ h)

/-- C10: a `compute` call leaves the configuration fields kp, ki, kd,
setpoint, output_min, output_max, sample_time and auto_mode unchanged; only
the dynamic state (integral, last_error, last_input, last_output, last_time,
initialized) may change. -/
theorem c10_compute_preserves_config (s : PIDState) (input_val now : ℚ) :
    (compute s input_val now).1.kp = s.kp ∧
    (compute s input_val now).1.ki = s.ki ∧
    (compute s input_val now).1.kd = s.kd ∧
    (compute s input_val now).1.setpoint = s.setpoint ∧
    (compute s input_val now).1.output_min = s.output_min ∧
    (compute s input_val now).1.output_max = s.output_max ∧
    (compute s input_val now).1.sample_time = s.sample_time ∧
    (compute s input_val now).1.auto_mode = s.auto_mode := by
  simp only [compute, computeFirst, computeFull]
  split_ifs <;> simp

/-- C7: `set_output_limits` with min > max is a complete no-op (the whole
state, in particular output_min, output_max and integral, is unchanged); with
min ≤ max it installs the new limits and re-clamps the integral into
[min, max] exactly when the controller is in auto mode. -/
theorem c7_set_output_limits_spec (s : PIDState) (omin omax : ℚ) :
    (omin > omax → set_output_limits s omin omax = s) ∧
    (omin ≤ omax →
      (set_output_limits s omin omax).output_min = omin ∧
      (set_output_limits s omin omax).output_max = omax ∧
      (s.auto_mode = true →
        (set_output_limits s omin omax).integral = clampQ s.integral omin omax) ∧
      (s.auto_mode = false →
        (set_output_limits s omin omax).integral = s.integral)) := by
  constructor
  · intro h
    simp [set_output_limits, h]
  · intro h
    have h' : ¬(omin > omax) := not_lt.mpr h
    by_cases hb : s.auto_mode = true
    · simp [set_output_limits, h', hb]
    · have hb' : s.auto_mode = false := by simpa using hb
      simp [set_output_limits, h', hb']

/-- Witness for C7 at concrete inputs: `set_output_limits(80, 40)` on a fresh
controller changes nothing, while `set_output_limits(20, 90)` installs the new
limits. -/
theorem c7_witness :
    set_output_limits defaultPID 80 40 = defaultPID ∧
    (set_output_limits defaultPID 20 90).output_min = 20 ∧
    (set_output_limits defaultPID 20 90).output_max = 90 :=
  ⟨(c7_set_output_limits_spec defaultPID 80 40).1 (by norm_num),
   ((c7_set_output_limits_spec defaultPID 20 90).2 (by norm_num)).1,
   ((c7_set_output_limits_spec defaultPID 20 90).2 (by norm_num)).2.1⟩

/-- C8: in the recovery wrapper, a failed iteration increments the
consecutive-error counter and sleeps `5 + 3 × counter` seconds (counter after
the increment); the safety `set_fan_speed(70)` attempt happens exactly when
the counter has reached 3; a successful iteration resets the counter to 0 and
attempts no safety call.  Run over a trace, three consecutive failures produce
exactly one attempted `set_fan_speed(70)`, and a subsequent success leaves the
counter at 0. -/
theorem c8_recovery_wrapper (interval : ℚ) (n : ℕ) :
    (monitor_step interval n IterOutcome.err).1 = n + 1 ∧
    (monitor_step interval n IterOutcome.err).2.2 = 5 + ((n : ℚ) + 1) * 3 ∧
    (monitor_step interval n IterOutcome.err).2.1
      = (if n + 1 ≥ 3 then [70] else []) ∧
    (monitor_step interval n IterOutcome.ok).1 = 0 ∧
    (monitor_step interval n IterOutcome.ok).2.1 = [] ∧
    (monitor_run interval 0
      [IterOutcome.err, IterOutcome.err, IterOutcome.err]).2 = [70] ∧
    (monitor_run interval 0
      [IterOutcome.err, IterOutcome.err, IterOutcome.err, IterOutcome.ok]).1 = 0 := by
  refine ⟨rfl, ?_, rfl, rfl, rfl, rfl, rfl⟩
  simp only [monitor_step]
  push_cast
  ring

/-- C2: for an already-initialized controller in auto mode, a `compute` call
whose elapsed time `now - last_time` is at least the sample time (and, being
an elapsed time, nonnegative) returns an output within `5 × elapsed` of the
previous output, and within `2.5 × elapsed` when the error magnitude is below
2. -/
theorem c2_rate_limiting (s : PIDState) (input_val now : ℚ)
    (hauto : s.auto_mode = true) (hinit : s.initialized = true)
    (helapsed : s.sample_time ≤ now - s.last_time)
    (hpos : 0 ≤ now - s.last_time) :
    abs ((compute s input_val now).2 - s.last_output) ≤ 5 * (now - s.last_time) ∧
    (abs (input_val - s.setpoint) < 2 →
      abs ((compute s input_val now).2 - s.last_output) ≤ 5/2 * (now - s.last_time)) := by
  rw [compute_full_eq s input_val now hauto (not_lt.mpr helapsed) hinit]
  simp only [computeFull]
  constructor
  · exact le_trans
      (rateLimit_sub_abs_le _ _ _ (maxChangeQ_nonneg _ _ hpos))
      (maxChangeQ_le _ _ hpos)
  · intro herr
    have hmc : maxChangeQ (input_val - s.setpoint) (now - s.last_time)
        = 5 * (now - s.last_time) * (1/2) := by
      simp only [maxChangeQ]
      rw [if_pos herr]
    rw [hmc]
    refine le_trans (rateLimit_sub_abs_le _ _ _ ?_) (le_of_eq (by ring))
    linarith

/-- Concrete already-initialized auto-mode state used by several witnesses:
default gains/limits, setpoint 60, previous output 50, integral 40, last
update at time 0. -/
def sRun : PIDState :=
  { defaultPID with
    auto_mode := true
    initialized := true
    last_output := 50
    integral := 40
    setpoint := 60
    last_time := 0 }

/-- Concrete fresh auto-mode controller with setpoint 60 (the spec's
end-to-end scenario). -/
def s65 : PIDState := { defaultPID with setpoint := 60, auto_mode := true }

/-- Witness for C2 at the concrete state `sRun` with input 65 at time 1
(elapsed 1 = sample time). -/
theorem c2_witness :
    abs ((compute sRun 65 1).2 - sRun.last_output) ≤ 5 * (1 - sRun.last_time) ∧
    (abs ((65 : ℚ) - sRun.setpoint) < 2 →
      abs ((compute sRun 65 1).2 - sRun.last_output) ≤ 5/2 * (1 - sRun.last_time)) :=
  c2_rate_limiting sRun 65 1 rfl rfl
    (by norm_num [sRun, defaultPID, mkPID])
    (by norm_num [sRun, defaultPID, mkPID])

/-- C3: the first `compute` call on a fresh controller in auto mode performs
the bumpless start: with positive error it returns
`35 + min(error, 15)/15 × 25` and seeds the integral to `0.3 ×` that output;
with error ≤ 0 it returns `output_min` and seeds the integral to
`0.3 × output_min`; in both cases it marks the controller initialized (the
returned value is the stored formula value itself — no blending or rate
limiting is applied). -/
theorem c3_bumpless_start (s : PIDState) (input_val now : ℚ)
    (hauto : s.auto_mode = true) (hfresh : s.initialized = false) :
    (input_val - s.setpoint > 0 →
      (compute s input_val now).2
        = 35 + (min (input_val - s.setpoint) 15) / 15 * 25 ∧
      (compute s input_val now).1.integral
        = (compute s input_val now).2 * (3/10)) ∧
    (input_val - s.setpoint ≤ 0 →
      (compute s input_val now).2 = s.output_min ∧
      (compute s input_val now).1.integral = s.output_min * (3/10)) ∧
    (compute s input_val now).1.initialized = true ∧
    (compute s input_val now).1.last_output = (compute s input_val now).2 := by
  rw [compute_first_eq s input_val now hauto hfresh]
  simp only [computeFirst]
  refine ⟨?_, ?_, ?_, ?_⟩
  · intro h
    rw [if_pos h]
    exact ⟨rfl, rfl⟩
  · intro h
    rw [if_neg (not_lt.mpr h)]
    exact ⟨rfl, rfl⟩
  · split_ifs <;> rfl
  · split_ifs <;> rfl

/-- Witness for C3: setpoint 60, first `compute(65.0)` returns
130/3 ≈ 43.33 and seeds the integral to 13.0. -/
theorem c3_witness :
    (compute s65 65 1).2 = 130/3 ∧
    (compute s65 65 1).1.integral = 13 ∧
    (compute s65 65 1).1.initialized = true := by
  have h := c3_bumpless_start s65 65 1 rfl rfl
  have h1 := h.1 (by norm_num [s65, defaultPID, mkPID])
  refine ⟨?_, ?_, h.2.2.1⟩
  · rw [h1.1]
    norm_num [s65, defaultPID, mkPID, min_def]
  · rw [h1.2, h1.1]
    norm_num [s65, defaultPID, mkPID, min_def]

/-- Counterexample to C1 as stated: on the default controller (output limits
[30, 100]) with auto mode off, `compute` returns the disabled-mode value 0.0,
which is NOT within [output_min, output_max]. -/
theorem c1_counterexample :
    defaultPID.auto_mode = false ∧
    (compute defaultPID 65 1).2 = 0 ∧
    ¬(defaultPID.output_min ≤ (compute defaultPID 65 1).2) := by
  refine ⟨rfl, ?_, ?_⟩
  · rw [compute_not_auto defaultPID 65 1 rfl]
  · rw [compute_not_auto defaultPID 65 1 rfl]
    norm_num [defaultPID, mkPID]

/-- C1 amended: in auto mode, with limits wide enough to contain the
first-call range ([35, 60], i.e. output_min ≤ 35 and 60 ≤ output_max), with
the previous output inside the limits whenever the controller is initialized,
and with a nonnegative elapsed time, every `compute` return value (first-call,
early-return and rate-limited paths alike) lies within
[output_min, output_max].  The disabled-mode return is the constant 0.0 and
can fall outside the limits. -/
theorem c1_output_within_limits (s : PIDState) (input_val now : ℚ)
    (hauto : s.auto_mode = true)
    (hmin : s.output_min ≤ 35) (hmax : 60 ≤ s.output_max)
    (hlast : s.initialized = true →
      s.output_min ≤ s.last_output ∧ s.last_output ≤ s.output_max)
    (htime : s.last_time ≤ now) :
    s.output_min ≤ (compute s input_val now).2 ∧
    (compute s input_val now).2 ≤ s.output_max := by
  have hmm : s.output_min ≤ s.output_max := by linarith
  by_cases hinit : s.initialized = true
  · obtain ⟨hl1, hl2⟩ := hlast hinit
    by_cases hearly : now - s.last_time < s.sample_time
    · rw [compute_early s input_val now hauto hearly hinit]
      exact ⟨hl1, hl2⟩
    · rw [compute_full_eq s input_val now hauto hearly hinit]
      simp only [computeFull]
      exact rateLimit_mem _ _ _ _ _
        (maxChangeQ_nonneg _ _ (by linarith)) hl1 hl2
        (le_clampQ _ _ _) (clampQ_le _ _ _ hmm)
  · have hfresh : s.initialized = false := by simpa using hinit
    rw [compute_first_eq s input_val now hauto hfresh]
    simp only [computeFirst]
    by_cases herr : input_val - s.setpoint > 0
    · rw [if_pos herr]
      have h0 : (0 : ℚ) ≤ (min (input_val - s.setpoint) 15) / 15 :=
        div_nonneg (le_min (le_of_lt herr) (by norm_num)) (by norm_num)
      have h1 : (min (input_val - s.setpoint) 15) / 15 ≤ 1 := by
        rw [div_le_one (by norm_num : (0:ℚ) < 15)]
        exact min_le_right _ _
      constructor
      · show s.output_min ≤ 35 + (min (input_val - s.setpoint) 15) / 15 * 25
        linarith
      · show 35 + (min (input_val - s.setpoint) 15) / 15 * 25 ≤ s.output_max
        linarith
    · rw [if_neg herr]
      exact ⟨le_rfl, hmm⟩

/-- Witness for the amended C1 at the concrete initialized state `sRun`,
input 65, time 1. -/
theorem c1_witness :
    sRun.output_min ≤ (compute sRun 65 1).2 ∧
    (compute sRun 65 1).2 ≤ sRun.output_max :=
  c1_output_within_limits sRun 65 1 rfl
    (by norm_num [sRun, defaultPID, mkPID])
    (by norm_num [sRun, defaultPID, mkPID])
    (fun _ => by norm_num [sRun, defaultPID, mkPID])
    (by norm_num [sRun, defaultPID, mkPID])

/-- Counterexample to C4 as stated: `initialize` resets the integral to 0.0,
which is below the default output_min of 30; and the first `compute` call
itself seeds the integral to 13.0 (0.3 × 130/3), also below output_min.  So
the integral is NOT clamped into [output_min, output_max] after every
state-updating operation. -/
theorem c4_counterexample :
    (reset_state defaultPID).integral = 0 ∧
    (reset_state defaultPID).output_min = 30 ∧
    ¬((reset_state defaultPID).output_min ≤ (reset_state defaultPID).integral) ∧
    (compute s65 65 1).1.integral = 13 ∧
    ¬((compute s65 65 1).1.output_min ≤ (compute s65 65 1).1.integral) := by
  refine ⟨rfl, rfl, ?_, ?_, ?_⟩
  · norm_num [reset_state, defaultPID, mkPID]
  · norm_num [compute, computeFirst, s65, defaultPID, mkPID, min_def]
  · norm_num [compute, computeFirst, s65, defaultPID, mkPID, min_def]

/-- C4 amended: the integral is clamped into the output limits by the two
operations that actually clamp it — `set_output_limits` with valid limits in
auto mode, and the integral update on the steady-state `compute` path.  The
first-call seeding of `compute`, `initialize` and `set_auto_mode` can leave
the integral outside [output_min, output_max]. -/
theorem c4_integral_clamped_amended (s : PIDState) (omin omax input_val now : ℚ)
    (hmm : s.output_min ≤ s.output_max) :
    (omin ≤ omax → s.auto_mode = true →
      omin ≤ (set_output_limits s omin omax).integral ∧
      (set_output_limits s omin omax).integral ≤ omax) ∧
    (s.auto_mode = true → s.initialized = true →
      s.sample_time ≤ now - s.last_time →
      s.output_min ≤ (compute s input_val now).1.integral ∧
      (compute s input_val now).1.integral ≤ s.output_max) := by
  constructor
  · intro h1 h2
    simp only [set_output_limits, not_lt.mpr h1, if_false, h2, if_true]
    exact ⟨le_clampQ _ _ _, clampQ_le _ _ _ h1⟩
  · intro hauto hinit helapsed
    rw [compute_full_eq s input_val now hauto (not_lt.mpr helapsed) hinit]
    simp only [computeFull]
    exact ⟨le_clampQ _ _ _, clampQ_le _ _ _ hmm⟩

/-- Witness for the amended C4 at concrete inputs (state `sRun`, new limits
[20, 90], and a steady-state `compute` at input 65, time 1). -/
theorem c4_witness :
    ((20 : ℚ) ≤ (set_output_limits sRun 20 90).integral ∧
      (set_output_limits sRun 20 90).integral ≤ 90) ∧
    (sRun.output_min ≤ (compute sRun 65 1).1.integral ∧
      (compute sRun 65 1).1.integral ≤ sRun.output_max) :=
  ⟨(c4_integral_clamped_amended sRun 20 90 65 1
      (by norm_num [sRun, defaultPID, mkPID])).1 (by norm_num) rfl,
   (c4_integral_clamped_amended sRun 20 90 65 1
      (by norm_num [sRun, defaultPID, mkPID])).2 rfl rfl
      (by norm_num [sRun, defaultPID, mkPID])⟩

/-- Controller with output limits reconfigured to [30, 50] (a legal
`set_output_limits` call, as in `configure_pid(max_fan_speed=50)`). -/
def sLow : PIDState := set_output_limits defaultPID 30 50

/-- Counterexample to C9 as stated: with output_max = 50 (below the curve's
75% knee), the base response is DECREASING on errors above 5 and exceeds
output_max: baseResponse(6) = 74.75 > 50 = baseResponse(15). -/
theorem c9_counterexample :
    (5 : ℚ) < 6 ∧ (6 : ℚ) < 15 ∧
    calculate_base_response sLow 15 < calculate_base_response sLow 6 ∧
    ¬(calculate_base_response sLow 6 ≤ sLow.output_max) := by
  norm_num [calculate_base_response, sLow, set_output_limits, clampQ,
    defaultPID, mkPID, min_def, max_def]

/-- C9 amended: provided output_max ≥ 75 (as with the default limits), the
base response on errors above 5 is monotonically nondecreasing in the error
and bounded above by output_max. -/
theorem c9_base_response_monotone_amended (s : PIDState) (h75 : 75 ≤ s.output_max) :
    (∀ e1 e2 : ℚ, 5 < e1 → e1 < e2 →
      calculate_base_response s e1 ≤ calculate_base_response s e2) ∧
    (∀ e : ℚ, 5 < e → calculate_base_response s e ≤ s.output_max) := by
  have key : ∀ e : ℚ, 5 < e →
      calculate_base_response s e
        = 75 + ((min (e - 5) 10) / 10) * ((min (e - 5) 10) / 10) * (s.output_max - 75) := by
    intro e he
    simp only [calculate_base_response]
    rw [if_neg (by linarith), if_neg (by linarith), if_neg (by linarith)]
  have tprop : ∀ e : ℚ, 5 < e →
      0 ≤ (min (e - 5) 10) / 10 ∧ (min (e - 5) 10) / 10 ≤ 1 := by
    intro e he
    constructor
    · exact div_nonneg (le_min (by linarith) (by norm_num)) (by norm_num)
    · rw [div_le_one (by norm_num : (0:ℚ) < 10)]
      exact min_le_right _ _
  constructor
  · intro e1 e2 h1 h2
    rw [key e1 h1, key e2 (by linarith)]
    obtain ⟨h10, h11⟩ := tprop e1 h1
    obtain ⟨h20, h21⟩ := tprop e2 (by linarith)
    have hmin : min (e1 - 5) 10 ≤ min (e2 - 5) 10 := min_le_min (by linarith) le_rfl
    have hle : (min (e1 - 5) 10) / 10 ≤ (min (e2 - 5) 10) / 10 :=
      (div_le_div_iff_of_pos_right (by norm_num : (0:ℚ) < 10)).mpr hmin
    have hsq : (min (e1 - 5) 10) / 10 * ((min (e1 - 5) 10) / 10)
        ≤ (min (e2 - 5) 10) / 10 * ((min (e2 - 5) 10) / 10) :=
      mul_le_mul hle hle h10 h20
    have := mul_le_mul_of_nonneg_right hsq
      (by linarith : (0:ℚ) ≤ s.output_max - 75)
    linarith
  · intro e he
    rw [key e he]
    obtain ⟨h0, h1⟩ := tprop e he
    have hsq : (min (e - 5) 10) / 10 * ((min (e - 5) 10) / 10) ≤ 1 := by
      have := mul_le_mul h1 h1 h0 zero_le_one
      linarith
    have := mul_le_mul_of_nonneg_right hsq (by linarith : (0:ℚ) ≤ s.output_max - 75)
    linarith

/-- Witness for the amended C9 on the default controller (output_max = 100):
monotone step from error 6 to error 7, and bounded by output_max at error 6. -/
theorem c9_witness :
    calculate_base_response defaultPID 6 ≤ calculate_base_response defaultPID 7 ∧
    calculate_base_response defaultPID 6 ≤ defaultPID.output_max :=
  ⟨(c9_base_response_monotone_amended defaultPID
      (by norm_num [defaultPID, mkPID])).1 6 7 (by norm_num) (by norm_num),
   (c9_base_response_monotone_amended defaultPID
      (by norm_num [defaultPID, mkPID])).2 6 (by norm_num)⟩

/-- Counterexample to C5 as stated: the pyipmi backend
(`DellIPMIFanController.get_highest_temperature`) returns 0.0, not the claimed
fallback 60.0, when the sensor list is empty. -/
theorem c5_counterexample :
    ipmi_get_highest_temperature [] = 0 ∧ (0 : ℚ) ≠ 60 :=
  ⟨rfl, by norm_num⟩

/-- C5 amended: the ipmitool backend returns the maximum of the numeric
readings and falls back to 60.0 when the list is empty or holds no numeric
value; the pyipmi backend returns the maximum of the readings but falls back
to 0.0 on an empty list. -/
theorem c5_highest_temperature_amended (l : List (Option ℚ)) (l2 : List ℚ) :
    (l.filterMap id = [] → ipmitool_get_highest_temperature l = 60) ∧
    (l.filterMap id ≠ [] →
      ipmitool_get_highest_temperature l ∈ l.filterMap id ∧
      ∀ t ∈ l.filterMap id, t ≤ ipmitool_get_highest_temperature l) ∧
    ipmi_get_highest_temperature [] = 0 ∧
    (l2 ≠ [] →
      ipmi_get_highest_temperature l2 ∈ l2 ∧
      ∀ t ∈ l2, t ≤ ipmi_get_highest_temperature l2) := by
  refine ⟨?_, ?_, rfl, ?_⟩
  · intro h
    cases l with
    | nil => rfl
    | cons a t => simp [ipmitool_get_highest_temperature, h]
  · intro h
    cases l with
    | nil => exact absurd rfl h
    | cons a t =>
      cases hfm : (a :: t).filterMap id with
      | nil => exact absurd hfm h
      | cons b ts =>
        have heq : ipmitool_get_highest_temperature (a :: t) = ts.foldl max b := by
          simp [ipmitool_get_highest_temperature, hfm]
        rw [heq]
        constructor
        · rcases foldl_max_mem ts b with h1 | h1
          · rw [h1]
            exact List.mem_cons_self b ts
          · exact List.mem_cons_of_mem _ h1
        · intro x hx
          rcases List.mem_cons.mp hx with hx | hx
          · subst hx
            exact le_foldl_max ts x
          · exact foldl_max_le_of_mem ts b x hx
  · intro h
    cases l2 with
    | nil => exact absurd rfl h
    | cons a t =>
      constructor
      · show t.foldl max a ∈ a :: t
        rcases foldl_max_mem t a with h1 | h1
        · rw [h1]
          exact List.mem_cons_self a t
        · exact List.mem_cons_of_mem _ h1
      · intro x hx
        show x ≤ t.foldl max a
        rcases List.mem_cons.mp hx with hx | hx
        · subst hx
          exact le_foldl_max t x
        · exact foldl_max_le_of_mem t a x hx

/-- Witness for the amended C5 on concrete sensor lists. -/
theorem c5_witness :
    ipmitool_get_highest_temperature [none] = 60 ∧
    ipmitool_get_highest_temperature [some 40, none, some 55] ∈
      ([some 40, none, some 55] : List (Option ℚ)).filterMap id ∧
    (ipmi_get_highest_temperature [30, 45] ∈ ([30, 45] : List ℚ)) :=
  ⟨(c5_highest_temperature_amended [none] [30, 45]).1 (by simp),
   ((c5_highest_temperature_amended [some 40, none, some 55] [30, 45]).2.1
      (by simp)).1,
   ((c5_highest_temperature_amended [none] [30, 45]).2.2.2 (by simp)).1⟩

/-- Reachable controller state with output limits reconfigured to [0, 20]
(legal, since 0 ≤ 20) and monitoring then started at temperature 65
(`set_auto_mode(True, 65)`). -/
def s620 : PIDState := set_auto_mode (set_output_limits defaultPID 0 20) true (some 65)

/-- Counterexample to C6 as stated: the pyipmi monitoring loop
(`DellIPMIFanController._temperature_monitor_loop`) applies
`int(compute(...))` with NO clamping.  On `s620` the first compute returns
60.0 (bumpless start), so the loop applies 60 where the claimed
round-then-clamp value is 20. -/
theorem c6_counterexample :
    ((ipmi_loop_speed s620 65 1 : ℤ) : ℚ) = 60 ∧
    clampQ ((ipmi_loop_speed s620 65 1 : ℤ) : ℚ) s620.output_min s620.output_max = 20 ∧
    (60 : ℚ) ≠ 20 := by
  have hc : (compute s620 65 1).2 = 60 := by
    norm_num [compute, computeFirst, s620, set_auto_mode, reset_state,
      set_output_limits, defaultPID, mkPID, min_def]
  have hspeed : ipmi_loop_speed s620 65 1 = 60 := by
    rw [ipmi_loop_speed, hc]
    norm_num [pyTrunc]
  refine ⟨?_, ?_, by norm_num⟩
  · rw [hspeed]
    norm_num
  · rw [hspeed]
    norm_num [clampQ, s620, set_auto_mode, reset_state, set_output_limits,
      defaultPID, mkPID, min_def, max_def]

/-- C6 amended: the ipmitool monitoring loop applies `int(compute(...))`
clamped into the controller's [output_min, output_max]; whenever
0 ≤ output_min ≤ output_max ≤ 100 (as with the defaults [30, 100]) the
applied percentage lies in [0, 100], so `set_fan_speed`'s out-of-range
ValidationError branch is unreachable from that loop.  The pyipmi loop, by
contrast, applies the truncated compute result without clamping. -/
theorem c6_loop_speed_amended (s : PIDState) (temp now : ℚ)
    (h0 : 0 ≤ s.output_min) (h1 : s.output_min ≤ s.output_max)
    (h2 : s.output_max ≤ 100) :
    ipmitool_loop_speed s temp now
      = clampQ ((pyTrunc (compute s temp now).2 : ℤ) : ℚ)
          s.output_min s.output_max ∧
    0 ≤ ipmitool_loop_speed s temp now ∧
    ipmitool_loop_speed s temp now ≤ 100 ∧
    set_fan_speed_validate (ipmitool_loop_speed s temp now) = Except.ok () ∧
    ipmi_loop_speed s temp now = pyTrunc (compute s temp now).2 := by
  have hcfg := compute_config s temp now
  have heq : ipmitool_loop_speed s temp now
      = clampQ ((pyTrunc (compute s temp now).2 : ℤ) : ℚ)
          s.output_min s.output_max := by
    simp only [ipmitool_loop_speed]
    rw [hcfg.2.2.2.2.1, hcfg.2.2.2.2.2.1]
  have hlo : 0 ≤ ipmitool_loop_speed s temp now := by
    rw [heq]
    exact le_trans h0 (le_clampQ _ _ _)
  have hhi : ipmitool_loop_speed s temp now ≤ 100 := by
    rw [heq]
    exact le_trans (clampQ_le _ _ _ h1) h2
  refine ⟨heq, hlo, hhi, ?_, rfl⟩
  simp only [set_fan_speed_validate]
  rw [if_neg]
  push_neg
  exact ⟨hlo, hhi⟩

/-- Witness for the amended C6 at the concrete state `sRun` (default limits
[30, 100]), input 65, time 1. -/
theorem c6_witness :
    0 ≤ ipmitool_loop_speed sRun 65 1 ∧
    ipmitool_loop_speed sRun 65 1 ≤ 100 ∧
    set_fan_speed_validate (ipmitool_loop_speed sRun 65 1) = Except.ok () :=
  ⟨(c6_loop_speed_amended sRun 65 1 (by norm_num [sRun, defaultPID, mkPID])
      (by norm_num [sRun, defaultPID, mkPID])
      (by norm_num [sRun, defaultPID, mkPID])).2.1,
   (c6_loop_speed_amended sRun 65 1 (by norm_num [sRun, defaultPID, mkPID])
      (by norm_num [sRun, defaultPID, mkPID])
      (by norm_num [sRun, defaultPID, mkPID])).2.2.1,
   (c6_loop_speed_amended sRun 65 1 (by norm_num [sRun, defaultPID, mkPID])
      (by norm_num [sRun, defaultPID, mkPID])
      (by norm_num [sRun, defaultPID, mkPID])).2.2.2.1⟩
